import Mathlib

/-!
Shallow embedding of the gemini-cli orchestration layer, checked against its
TypeScript sources.

Components embedded here:

* the declarative tool-access policy (class DeclarativeTaskPolicy and its
  helper FileScopeMatcher, file declarativePolicy.ts);
* the stream retry controller (class RetryController, file retryController.ts);
* the verification service (class VerificationService);
* the conversation lifecycle service / turn driver
  (class ConversationLifecycleService, method sendMessageStream).

Modelling conventions:

* File-system paths are resolved absolute paths, represented as their list of
  nonempty segments.  Node's path.relative, applied to two resolved absolute
  paths, drops the common segment-list head and replaces every remaining
  segment of the origin by "..".
* Glob matching is performed by the external picomatch library; it is taken
  as an opaque parameter (pattern -> candidate -> Bool) throughout.
* Asynchronous generators are modelled as pure functions from an environment
  script (the responses of the model transport, loop detector, compression
  service and next-speaker check) to the list of items they emit.
-/

namespace GeminiCli

/-! ### Declarative tool-access policy (declarativePolicy.ts)

The policy validates a tool call against an optional allow-list and a list of
file scopes.  Paths are segment lists (see the header comment). -/

/-- A resolved absolute path, as its list of nonempty segments. -/
abbrev PathSegs := List String

/-- Length of the common head of two segment lists. -/
def commonPrefixLen : List String → List String → Nat
  | a :: as, b :: bs => if a = b then commonPrefixLen as bs + 1 else 0
  | _, _ => 0

/-- Node path.relative on two resolved absolute segment paths: walk up from
the origin for every segment past the common head, then down into the target. -/
def relSegments (root p : PathSegs) : List String :=
  let c := commonPrefixLen root p
  List.replicate (root.length - c) ".." ++ p.drop c

/-- The relative path rendered as a posix string (segments joined by "/").
On posix this is both path.relative's return value and normalizeToPosix of it. -/
def relString (root p : PathSegs) : String :=
  String.intercalate "/" (relSegments root p)

/-- JS String.prototype.startsWith, as a character-list head test. -/
def jsStartsWith (s pat : String) : Bool := pat.data.isPrefixOf s.data

/-- The relative-path escape test of the source (the relative string starts
with ".."), computed on segments: the joined string starts with ".." exactly
when the first segment does (the separator "/" can never complete a ".."
begun by a shorter first segment, and segments of resolved paths are
nonempty). -/
def relStartsEscape (rel : List String) : Bool :=
  match rel with
  | [] => false
  | s :: _ => jsStartsWith s ".."

/-- True when the project root's segments are a head of the path's segments,
i.e. the resolved path lies inside (or at) the project root. -/
def insideRoot (root p : PathSegs) : Bool :=
  commonPrefixLen root p = root.length

/-- One declared file scope.  Source fields id/name/description only feed the
human-readable label and are omitted; include is the include glob list,
exclude the optional exclude glob list. -/
structure DeclarativeFileScope where
  includeGlobs : List String
  excludeGlobs : Option (List String)
deriving DecidableEq, Repr

/-- PolicyRules: optional allow-list and optional scope list
(responseRequirements take no part in validateToolCall and are omitted). -/
structure DeclarativePolicyRules where
  allowedTools : Option (List String)
  fileScopes : Option (List DeclarativeFileScope)
deriving DecidableEq, Repr

inductive ViolationCode where
  | TOOL_NOT_ALLOWED
  | FILE_SCOPE_VIOLATION
deriving DecidableEq, Repr

structure DeclarativePolicyViolation where
  code : ViolationCode
  message : String
  toolName : String
  path : Option PathSegs
deriving DecidableEq, Repr

/-- The constructed policy object.  In the source, allowedTools is kept iff
the rules field is present (a JS array is truthy even when empty, so an empty
list is kept as an empty set), and fileScopes defaults to the empty list. -/
structure DeclarativeTaskPolicy where
  allowedTools : Option (List String)
  fileScopes : List DeclarativeFileScope
  projectRoot : PathSegs
deriving DecidableEq, Repr

/-- The DeclarativeTaskPolicy constructor. -/
def DeclarativeTaskPolicy.ofRules (rules : DeclarativePolicyRules)
    (projectRoot : PathSegs) : DeclarativeTaskPolicy :=
  { allowedTools := rules.allowedTools
    fileScopes := rules.fileScopes.getD []
    projectRoot := projectRoot }

/-- FileScopeMatcher.matches: compute the relative path; an empty relative
path or one starting with ".." never matches; otherwise the normalized
relative path must match some include glob and no exclude glob. -/
def FileScopeMatcher.matches (picomatch : String → String → Bool)
    (projectRoot : PathSegs) (scope : DeclarativeFileScope)
    (absolutePath : PathSegs) : Bool :=
  let rel := relSegments projectRoot absolutePath
  if rel.isEmpty then false
  else if relStartsEscape rel then false
  else
    let normalized := String.intercalate "/" rel
    (scope.includeGlobs.any fun pat => picomatch pat normalized) &&
      !((scope.excludeGlobs.getD []).any fun pat => picomatch pat normalized)

/-- Spread-sort-join of the allow set followed by the JS falsy-string
fallback: sorted comma-joined list, or "none" when the join is empty. -/
def renderAllowedList (allowed : List String) : String :=
  let joined := String.intercalate ", "
    ((allowed.eraseDups).mergeSort fun a b => decide (a ≤ b))
  if joined = "" then "none" else joined

/-- Message of a TOOL_NOT_ALLOWED violation. -/
def toolNotAllowedMessage (toolName : String) (allowed : List String) : String :=
  "Tool \"" ++ toolName ++ "\" is blocked by declarative policy. Allowed tools: "
    ++ renderAllowedList allowed ++ "."

/-- Message of a FILE_SCOPE_VIOLATION, naming the offending relative path. -/
def fileScopeViolationMessage (toolName : String) (root : PathSegs)
    (loc : PathSegs) : String :=
  "Tool \"" ++ toolName ++ "\" attempted to access \"" ++ relString root loc
    ++ "\" which is outside of the allowed policy scopes."

/-- The location loop of validateToolCall: the first reported location that
matches no declared scope produces the FILE_SCOPE_VIOLATION. -/
def firstScopeViolation (picomatch : String → String → Bool)
    (p : DeclarativeTaskPolicy) (toolName : String) :
    List PathSegs → Option DeclarativePolicyViolation
  | [] => none
  | loc :: rest =>
    if p.fileScopes.any fun scope =>
        FileScopeMatcher.matches picomatch p.projectRoot scope loc then
      firstScopeViolation picomatch p toolName rest
    else
      some { code := .FILE_SCOPE_VIOLATION
             message := fileScopeViolationMessage toolName p.projectRoot loc
             toolName := toolName
             path := some loc }

/-- The scope half of validateToolCall: no declared scopes permits
everything, otherwise every reported location is checked in order. -/
def DeclarativeTaskPolicy.scopeCheck (picomatch : String → String → Bool)
    (p : DeclarativeTaskPolicy) (toolName : String)
    (locations : List PathSegs) : Option DeclarativePolicyViolation :=
  if p.fileScopes.isEmpty then none
  else firstScopeViolation picomatch p toolName locations

/-- DeclarativeTaskPolicy.validateToolCall.  The invocation is represented by
the list of resolved locations its toolLocations method reports. -/
def DeclarativeTaskPolicy.validateToolCall (picomatch : String → String → Bool)
    (p : DeclarativeTaskPolicy) (toolName : String)
    (locations : List PathSegs) : Option DeclarativePolicyViolation :=
  match p.allowedTools with
  | some allowed =>
    if !(allowed.contains toolName) then
      some { code := .TOOL_NOT_ALLOWED
             message := toolNotAllowedMessage toolName allowed
             toolName := toolName
             path := none }
    else p.scopeCheck picomatch toolName locations
  | none => p.scopeCheck picomatch toolName locations

/-! ### Verification service (VerificationService.verify)

The service runs one grounding web search over the turn's final text and
always returns a structured result; every failure path is absorbed into an
uncertain result.  The tool registry, invocation builder and search execution
are external collaborators, represented by an environment record. -/

/-- One grounding source, title/uri possibly absent. -/
structure SourceRef where
  title : Option String
  uri : Option String
deriving DecidableEq, Repr

structure VerificationAssertion where
  assertion : String
  grounded : Bool
  sources : List SourceRef
  snippet : Option String
  note : Option String
deriving DecidableEq, Repr

inductive VerificationStatus where
  | grounded
  | uncertain
  | skipped
deriving DecidableEq, Repr

structure VerificationResult where
  required : Bool
  status : VerificationStatus
  reason : Option String
  query : Option String
  summaryText : String
  assertions : List VerificationAssertion
deriving DecidableEq, Repr

structure VerificationInput where
  finalText : String
  promptId : String
  model : String
  reason : Option String
  signalAborted : Bool
deriving DecidableEq, Repr

/-- Outcome of invocation.execute under the combined cancellation signal:
either it raises (with the combined signal's aborted flag as observed in the
catch handler, and the thrown error's string rendering), or it returns a
result with text content and grounding sources. -/
inductive SearchExecution where
  | throws (errText : String) (combinedAborted : Bool)
  | returns (llmContent : String) (sources : List SourceRef)
deriving DecidableEq, Repr

/-- External collaborators of verify: whether the web-search tool is
registered, whether tool.build raises (with the error's string rendering),
and what executing the built invocation does. -/
structure VerificationEnv where
  webSearchToolRegistered : Bool
  buildError : Option String
  execution : SearchExecution
deriving DecidableEq, Repr

def MAX_QUERY_LENGTH : Nat := 256
def MAX_SNIPPET_LENGTH : Nat := 400

/-- JS whitespace class member, restricted to the ASCII whitespace that the
embedding's strings use. -/
def isJsWhitespace (c : Char) : Bool :=
  c = ' ' || c = '\t' || c = '\n' || c = '\r'

/-- One pass of regex replace of whitespace-runs by a single space
(replace space-plus with a single space, globally). -/
def collapseWhitespace : List Char → List Char
  | [] => []
  | c :: rest =>
    if isJsWhitespace c then
      ' ' :: collapseWhitespace (rest.dropWhile isJsWhitespace)
    else c :: collapseWhitespace rest
termination_by l => l.length
decreasing_by
  · exact Nat.lt_succ_of_le (List.dropWhile_sublist isJsWhitespace).length_le
  · simp

def collapseWhitespaceStr (s : String) : String :=
  String.mk (collapseWhitespace s.data)

/-- truncate of the source: identity up to the limit, otherwise cut to
limit minus one characters and append a one-character ellipsis. -/
def truncateTo (value : String) (maxLength : Nat) : String :=
  if value.length ≤ maxLength then value
  else (value.take (maxLength - 1)) ++ "…"

/-- VerificationService.buildQuery: reason-prefixed, whitespace-collapsed,
trimmed, ellipsis-truncated at MAX_QUERY_LENGTH. -/
def buildQuery (response : String) (reason : Option String) : String :=
  let base := match reason with
    | some r => r ++ ": " ++ response
    | none => response
  let normalised := (collapseWhitespaceStr base).trim
  if normalised.length ≤ MAX_QUERY_LENGTH then normalised
  else (normalised.take (MAX_QUERY_LENGTH - 1)) ++ "…"

/-- formatSources of the source: an enumerated title-and-uri list. -/
def formatSources (sources : List SourceRef) : String :=
  if sources.isEmpty then ""
  else
    String.intercalate "\n" ("Sources:" :: sources.enum.map fun iv =>
      "  " ++ toString (iv.1 + 1) ++ ". " ++ iv.2.title.getD "Untitled"
        ++ " (" ++ iv.2.uri.getD "No URI available" ++ ")")

/-- quoteSnippet of the source. -/
def quoteSnippet (snippet : Option String) : String :=
  match snippet with
  | none => ""
  | some s =>
    let normalised := (collapseWhitespaceStr s).trim
    if normalised = "" then "" else "Snippet:\n> " ++ normalised

/-- VerificationService.verify.  Every branch of the source returns a
VerificationResult; no branch raises (the single try block around execution
is caught and absorbed). -/
def VerificationService.verify (env : VerificationEnv)
    (input : VerificationInput) : VerificationResult :=
  let required := true
  let normalizedText := input.finalText.trim
  if normalizedText = "" then
    { required := required
      status := .uncertain
      reason := some "empty_response"
      query := none
      summaryText :=
        "Verification result:\n- ⚠️ Unable to verify because no response text was produced."
      assertions := [{ assertion := ""
                       grounded := false
                       sources := []
                       snippet := none
                       note := some "No response text available to verify." }] }
  else
    let query := buildQuery normalizedText input.reason
    if !env.webSearchToolRegistered then
      { required := required
        status := .uncertain
        reason := some "missing_web_search_tool"
        query := some query
        summaryText :=
          "Verification result:\n- ⚠️ Web search tool is unavailable. Treat this answer as unverified."
        assertions := [{ assertion := truncateTo normalizedText MAX_SNIPPET_LENGTH
                         grounded := false
                         sources := []
                         snippet := none
                         note := some "Web search tool not registered in tool registry." }] }
    else
      match env.buildError with
      | some err =>
        let message := "Unable to prepare verification search: " ++ err
        { required := required
          status := .uncertain
          reason := some "web_search_build_failed"
          query := some query
          summaryText := "Verification result:\n- ⚠️ " ++ message
          assertions := [{ assertion := truncateTo normalizedText MAX_SNIPPET_LENGTH
                           grounded := false
                           sources := []
                           snippet := none
                           note := some message }] }
      | none =>
        match env.execution with
        | .throws errText combinedAborted =>
          if combinedAborted then
            { required := required
              status := .uncertain
              reason := some "aborted"
              query := some query
              summaryText :=
                "Verification result:\n- ⚠️ Verification cancelled before completion. Treat this answer as unverified."
              assertions := [{ assertion := truncateTo normalizedText MAX_SNIPPET_LENGTH
                               grounded := false
                               sources := []
                               snippet := none
                               note := some "Verification aborted." }] }
          else
            let message := "Verification failed: " ++ errText
            { required := required
              status := .uncertain
              reason := some "web_search_failed"
              query := some query
              summaryText := "Verification result:\n- ⚠️ " ++ message
              assertions := [{ assertion := truncateTo normalizedText MAX_SNIPPET_LENGTH
                               grounded := false
                               sources := []
                               snippet := none
                               note := some message }] }
        | .returns llmContent sources =>
          let snippet := truncateTo llmContent.trim MAX_SNIPPET_LENGTH
          if sources.isEmpty then
            { required := required
              status := .uncertain
              reason := some "no_sources"
              query := some query
              summaryText := String.intercalate "\n"
                ["Verification result:",
                 "- ⚠️ No supporting sources were returned. Treat this answer as unverified."]
              assertions := [{ assertion := truncateTo normalizedText MAX_SNIPPET_LENGTH
                               grounded := false
                               sources := []
                               snippet := some snippet
                               note := some "Web search returned no grounding sources." }] }
          else
            let summaryLines :=
              ["Verification result:",
               "- ✅ Grounded with " ++ toString sources.length ++ " supporting source"
                 ++ (if sources.length = 1 then "" else "s") ++ "."]
            let snippetSection := quoteSnippet (some snippet)
            let summaryLines :=
              if snippetSection = "" then summaryLines
              else summaryLines ++ ["", snippetSection]
            let sourcesSection := formatSources sources
            let summaryLines :=
              if sourcesSection = "" then summaryLines
              else summaryLines ++ ["", sourcesSection]
            { required := required
              status := .grounded
              reason := input.reason
              query := some query
              summaryText := String.intercalate "\n" summaryLines
              assertions := [{ assertion := truncateTo normalizedText MAX_SNIPPET_LENGTH
                               grounded := true
                               sources := sources
                               snippet := some snippet
                               note := none }] }

/-! ### Stream retry controller (RetryController.run / handleFailure)

One model-call attempt is wrapped per loop iteration; a malformed-content
invalid-stream failure is retried with linear backoff while attempts remain,
a safety-blocked failure is never retried, and a non-categorized error is
never retried.  The run is modelled as the trace of everything the generator
does: yielded chunks and retry events, telemetry reports, backoff sleeps, and
the final re-raise when the last attempt failed. -/

inductive InvalidStreamCategory where
  | SAFETY_BLOCK
  | MALFORMED_CONTENT
deriving DecidableEq, Repr

/-- Errors an attempt stream may raise: a categorized InvalidStreamError,
a generic (non-categorized) error, or the controller's own initial sentinel
error (Request failed after all retries), thrown when no attempt runs. -/
inductive RunError where
  | invalidStream (errType : String) (category : InvalidStreamCategory)
  | generic (msg : String)
  | sentinel
deriving DecidableEq, Repr

structure RetryControllerOptions where
  maxAttempts : Nat
  initialDelayMs : Nat
deriving DecidableEq, Repr

/-- RetryEventPayload (the context field, a structured clone of the error
context, is omitted). -/
structure RetryEventPayload where
  attempt : Nat
  maxAttempts : Nat
  delayMs : Nat
  errType : String
  errorCategory : InvalidStreamCategory
deriving DecidableEq, Repr

structure RetryDecision where
  shouldRetry : Bool
  payload : Option RetryEventPayload
  delayMs : Option Nat
deriving DecidableEq, Repr

/-- One attempt of the factory: its stream either completes after yielding
its chunks, or yields some chunks and then raises. -/
inductive AttemptOutcome where
  | success (chunks : List Nat)
  | failure (chunks : List Nat) (err : RunError)
deriving DecidableEq, Repr

/-- Everything observable the controller does, in order. -/
inductive TraceItem where
  | chunk (c : Nat)
  | retryEvent (p : RetryEventPayload)
  | sleep (ms : Nat)
  | telemetryAttempt (p : RetryEventPayload)
  | telemetryFailure (p : RetryEventPayload)
  | raised (e : RunError)
deriving DecidableEq, Repr

/-- RetryController.handleFailure, returning the decision together with the
telemetry it reports (logRetryAttempt / logRetryFailure). -/
def RetryController.handleFailure (opts : RetryControllerOptions)
    (attempt : Nat) (err : RunError) : RetryDecision × List TraceItem :=
  match err with
  | .generic _ => ({ shouldRetry := false, payload := none, delayMs := none }, [])
  | .sentinel => ({ shouldRetry := false, payload := none, delayMs := none }, [])
  | .invalidStream errType category =>
    let delayMs := opts.initialDelayMs * (attempt + 1)
    let payload : RetryEventPayload :=
      { attempt := attempt
        maxAttempts := opts.maxAttempts
        delayMs := delayMs
        errType := errType
        errorCategory := category }
    if category = .SAFETY_BLOCK then
      ({ shouldRetry := false, payload := some payload, delayMs := none },
       [.telemetryFailure payload])
    else if attempt < opts.maxAttempts - 1 then
      ({ shouldRetry := true, payload := some payload, delayMs := some delayMs },
       [.telemetryAttempt payload])
    else
      ({ shouldRetry := false, payload := some payload, delayMs := none },
       [.telemetryFailure payload])

/-- State of a finished run: its trace, the pending error to re-raise (none
after a successful attempt), and how many attempts were started. -/
structure RetryRunState where
  trace : List TraceItem
  pendingError : Option RunError
  attemptsStarted : Nat
deriving DecidableEq, Repr

/-- The attempt loop of RetryController.run, from a given attempt index; the
fuel is the number of loop iterations still permitted
(maxAttempts - attempt).  Reaching fuel zero without an iteration leaves the
sentinel error pending (only possible with maxAttempts = 0). -/
def RetryController.runAux (opts : RetryControllerOptions)
    (factory : Nat → AttemptOutcome) : Nat → Nat → RetryRunState
  | 0, _ => { trace := [], pendingError := some .sentinel, attemptsStarted := 0 }
  | fuel + 1, attempt =>
    match factory attempt with
    | .success chunks =>
      { trace := chunks.map TraceItem.chunk
        pendingError := none
        attemptsStarted := 1 }
    | .failure chunks err =>
      let handled := RetryController.handleFailure opts attempt err
      let decision := handled.1
      let retryYield : List TraceItem :=
        match decision.payload, decision.shouldRetry with
        | some p, true => [.retryEvent p]
        | _, _ => []
      if decision.shouldRetry then
        let sleepTrace : List TraceItem :=
          match decision.delayMs with
          | some d => if 0 < d then [.sleep d] else []
          | none => []
        let rest := RetryController.runAux opts factory fuel (attempt + 1)
        { trace := chunks.map TraceItem.chunk ++ handled.2 ++ retryYield
            ++ sleepTrace ++ rest.trace
          pendingError := rest.pendingError
          attemptsStarted := 1 + rest.attemptsStarted }
      else
        { trace := chunks.map TraceItem.chunk ++ handled.2 ++ retryYield
          pendingError := some err
          attemptsStarted := 1 }

/-- RetryController.run: loop from attempt 0 with maxAttempts iterations
permitted; after the loop the pending error, if any, is re-raised (the raise
is the last trace item, after every yielded event). -/
def RetryController.run (opts : RetryControllerOptions)
    (factory : Nat → AttemptOutcome) : RetryRunState :=
  let s := RetryController.runAux opts factory opts.maxAttempts 0
  { trace := s.trace ++ (match s.pendingError with
      | some e => [.raised e]
      | none => [])
    pendingError := s.pendingError
    attemptsStarted := s.attemptsStarted }

/-- Number of retry events in a trace. -/
def countRetryEvents (t : List TraceItem) : Nat :=
  (t.filter fun i => match i with | .retryEvent _ => true | _ => false).length

/-- Number of failure-telemetry reports in a trace. -/
def countFailureTelemetry (t : List TraceItem) : Nat :=
  (t.filter fun i => match i with | .telemetryFailure _ => true | _ => false).length

/-! ### Turn driver (ConversationLifecycleService.sendMessageStream)

The driver turns one request into one or more model round-trips, with bounded
recursive continuation.  Its collaborators (compression service, loop
detector, model router, the model stream of each dispatch, and the
next-speaker check) are externals; the responses they give to one dispatch
sequence are collected in a TurnScript, and a run consumes one script per
dispatch, in order.

Abstractions: the chat history, IDE-context injection and telemetry are not
modelled (no claim mentions them; the IDE block only appends a history turn).
The chat object is represented by its last prompt token count.  A request is
represented by the length of its JSON serialization, which is all
sendMessageStream reads from it. -/

def MAX_TURNS : Nat := 100

structure DriverConfig where
  maxSessionTurns : Int
  continueOnFailedApiCall : Bool
  skipNextSpeakerCheck : Bool
  quotaErrorOccurred : Bool
deriving DecidableEq, Repr

/-- External configuration that does not change during a run: the per-model
token limit table and the effective model used when no sequence model is
locked (getEffectiveModel of the configured model and fallback mode). -/
structure DriverEnv where
  tokenLimit : String → Int
  defaultEffectiveModel : String

/-- The driver's mutable fields that sendMessageStream touches. -/
structure DriverState where
  sessionTurnCount : Nat
  lastPromptId : String
  currentSequenceModel : Option String
  lastPromptTokenCount : Int
deriving DecidableEq, Repr

/-- A request, abstracted to the length of its JSON serialization. -/
structure Request where
  serializedLength : Nat
deriving DecidableEq, Repr

/-- Length of the JSON serialization of a single synthetic text turn
of the form bracket-brace text colon string-of-s brace-bracket, for a
text s with no characters needing escapes: the 13 fixed characters plus s. -/
def jsonTextRequestLength (s : String) : Nat := s.length + 13

/-- The injected invalid-stream recovery turn (System: Please continue.). -/
def systemPleaseContinueRequest : Request :=
  { serializedLength := jsonTextRequestLength "System: Please continue." }

/-- The injected next-speaker continuation turn (Please continue.). -/
def pleaseContinueRequest : Request :=
  { serializedLength := jsonTextRequestLength "Please continue." }

/-- One event of the model stream driven by turn.run, paired below with the
loop detector's addAndCheck verdict on it. -/
inductive StreamEvent where
  | chunk
  | invalidStream (category : InvalidStreamCategory)
  | errorEvent
deriving DecidableEq, Repr

/-- Responses of all collaborators for one dispatch sequence: the compression
result (some new token count iff status COMPRESSED), the loop verdict at turn
start, the router's model, the model stream with per-event loop verdicts,
whether the finished turn holds pending tool calls, and the next-speaker
verdict. -/
structure TurnScript where
  compressedTokenCount : Option Int
  loopAtStart : Bool
  routedModel : String
  events : List (StreamEvent × Bool)
  pendingToolCalls : Bool
  nextSpeakerIsModel : Bool
deriving DecidableEq, Repr

def defaultTurnScript : TurnScript :=
  { compressedTokenCount := none
    loopAtStart := false
    routedModel := ""
    events := []
    pendingToolCalls := false
    nextSpeakerIsModel := false }

/-- Events the driver yields to its caller. -/
inductive DriverEvent where
  | maxSessionTurns
  | contextWindowWillOverflow (estimated : Nat) (remaining : Int)
  | chatCompressed
  | loopDetected
  | invalidStream (category : InvalidStreamCategory)
  | errorContent
  | chunk
deriving DecidableEq, Repr

/-- Modelled from the spec: the Turn/stream surfacing layer (turn.ts) is not
among the sources; per the specification the stream controller never retries
safety-blocked output and the driver recovers only from recoverable failures,
so an invalid-stream failure event surfaced to the driver's event loop always
carries the recoverable malformed-content category, never the safety-blocked
one. -/
def SurfacedInvalidStream (category : InvalidStreamCategory) : Prop :=
  category = .MALFORMED_CONTENT

instance : DecidablePred SurfacedInvalidStream := by
  intro c
  unfold SurfacedInvalidStream
  infer_instance

/-- How the driver's for-await loop over the dispatched stream ends. -/
inductive ProcessEnd where
  | completed
  | loopDetected
  | errorStop
  | retryFailureStop
  | recover (category : InvalidStreamCategory)
deriving DecidableEq, Repr

/-- The driver's event loop body: for each stream event, first the loop
detector verdict (yield LoopDetected, abort, return), then the event is
yielded, then invalid-stream handling (when configured to continue on failed
calls: report failure and return if this call is already a recovery
continuation, otherwise recover), then an Error event returns. -/
def processStreamEvents (continueOnFailed isRetry : Bool) :
    List (StreamEvent × Bool) → List DriverEvent × ProcessEnd
  | [] => ([], .completed)
  | (ev, loopFlag) :: rest =>
    if loopFlag then ([.loopDetected], .loopDetected)
    else
      match ev with
      | .chunk =>
        let r := processStreamEvents continueOnFailed isRetry rest
        (DriverEvent.chunk :: r.1, r.2)
      | .errorEvent => ([DriverEvent.errorContent], .errorStop)
      | .invalidStream category =>
        if continueOnFailed then
          if isRetry then ([DriverEvent.invalidStream category], .retryFailureStop)
          else ([DriverEvent.invalidStream category], .recover category)
        else
          let r := processStreamEvents continueOnFailed isRetry rest
          (DriverEvent.invalidStream category :: r.1, r.2)

/-- Arguments of a recursive continuation call the driver makes. -/
structure ContinuationCall where
  request : Request
  turns : Nat
  isInvalidStreamRetry : Bool
deriving DecidableEq, Repr

/-- Result of a sendMessageStream call: the events yielded (recursive
continuations included), the final driver state, the scripts not consumed,
the total number of sendMessageStream invocations of the run, whether this
frame dispatched a model call, the invalid-stream recovery continuations this
frame itself initiated, and the overflow event payload this frame emitted,
if any. -/
structure RunResult where
  events : List DriverEvent
  state : DriverState
  scriptsLeft : List TurnScript
  frames : Nat
  dispatched : Bool
  recoveries : List ContinuationCall
  frameOverflow : Option (Nat × Int)

/-- getEffectiveModelForCurrentTurn: the sticky sequence model if locked,
otherwise the session's effective default model. -/
def effectiveModelForCurrentTurn (env : DriverEnv) (st : DriverState) : String :=
  match st.currentSequenceModel with
  | some m => m
  | none => env.defaultEffectiveModel

/-- Outcome of the driver's dispatch region (compression, loop-start check,
routing, the event loop) for one dispatch: either the frame finishes (the
events it yielded, the state it leaves, and whether a model call ran), or it
continues by recursing with an injected request; a recovery continuation
(isRecovery true) recurses with isRecoveryContinuation set, a next-speaker
continuation with it cleared. -/
inductive TailOutcome where
  | finish (events : List DriverEvent) (state : DriverState) (dispatched : Bool)
  | continueWith (events : List DriverEvent) (state : DriverState)
      (nextRequest : Request) (isRecovery : Bool)
deriving DecidableEq, Repr

/-- The state a tail outcome leaves. -/
def TailOutcome.state : TailOutcome → DriverState
  | .finish _ s _ => s
  | .continueWith _ s _ _ => s

/-- tryCompressChat (non-forced) as the driver sees it: on COMPRESSED the
chat is replaced (modelled by its new token count) and a ChatCompressed event
is yielded. -/
def compressionPhase (script : TurnScript) (st1 : DriverState) :
    List DriverEvent × DriverState :=
  match script.compressedTokenCount with
  | some t => ([DriverEvent.chatCompressed], { st1 with lastPromptTokenCount := t })
  | none => ([], st1)

/-- Model selection with stickiness: reuse the locked sequence model, else
lock the router's decision for the sequence. -/
def routingPhase (script : TurnScript) (st2 : DriverState) : DriverState :=
  match st2.currentSequenceModel with
  | some _ => st2
  | none => { st2 with currentSequenceModel := some script.routedModel }

/-- The driven stream and what follows it: the event loop
(processStreamEvents), then — when the loop completed normally — the
next-speaker region: with no pending tool calls, an unaborted caller signal,
no quota error and the check enabled, a next-speaker verdict of model injects
the continue turn. -/
def streamPhase (cfg : DriverConfig) (script : TurnScript) (st3 : DriverState)
    (compEvents : List DriverEvent) (signalAborted : Bool)
    (isInvalidStreamRetry : Bool) : TailOutcome :=
  match processStreamEvents cfg.continueOnFailedApiCall isInvalidStreamRetry
    script.events with
  | (streamEvents, pend) =>
    match pend with
    | .loopDetected => .finish (compEvents ++ streamEvents) st3 true
    | .errorStop => .finish (compEvents ++ streamEvents) st3 true
    | .retryFailureStop => .finish (compEvents ++ streamEvents) st3 true
    | .recover _ =>
      .continueWith (compEvents ++ streamEvents) st3 systemPleaseContinueRequest true
    | .completed =>
      if !script.pendingToolCalls && !signalAborted then
        if cfg.quotaErrorOccurred then .finish (compEvents ++ streamEvents) st3 true
        else if cfg.skipNextSpeakerCheck then .finish (compEvents ++ streamEvents) st3 true
        else if script.nextSpeakerIsModel then
          .continueWith (compEvents ++ streamEvents) st3 pleaseContinueRequest false
        else .finish (compEvents ++ streamEvents) st3 true
      else .finish (compEvents ++ streamEvents) st3 true

/-- The dispatch region in source order: non-forced compression, the
loop-detector turn-start check (LoopDetected and return, no model call),
routing with stickiness, then the dispatched stream. -/
def dispatchTail (cfg : DriverConfig) (script : TurnScript) (st1 : DriverState)
    (signalAborted : Bool) (isInvalidStreamRetry : Bool) : TailOutcome :=
  match compressionPhase script st1 with
  | (compEvents, st2) =>
    if script.loopAtStart then
      .finish (compEvents ++ [DriverEvent.loopDetected]) st2 false
    else
      streamPhase cfg script (routingPhase script st2) compEvents signalAborted
        isInvalidStreamRetry

/-- ensurePrompt / handlePromptChange: a prompt id different from the last
one clears the sticky sequence model (and resets the loop detector, which is
not part of the modelled state) and records the new prompt id. -/
def promptPhase (st : DriverState) (promptId : String) : DriverState :=
  if st.lastPromptId ≠ promptId then
    { st with lastPromptId := promptId, currentSequenceModel := none }
  else st

/-- The driver state right after the two entry steps of sendMessageStream:
ensurePrompt, then incrementSessionTurnCount. -/
def enterState (st : DriverState) (promptId : String) : DriverState :=
  { promptPhase st promptId with
    sessionTurnCount := (promptPhase st promptId).sessionTurnCount + 1 }

/-- ConversationLifecycleService.sendMessageStream.  In source order:
ensurePrompt (a new prompt id clears the sequence model), session turn count
increment, session-cap check, turns-budget check, context-overflow estimate
check (the float comparison estimate greater-than remaining times 0.95 is
taken exactly, as 100 times estimate greater-than 95 times remaining over the
integers), then the dispatch region (dispatchTail), and finally the recursive
continuation the region requested, if any — invalid-stream recovery recursing
with isRecoveryContinuation set, next-speaker auto-continuation with it
cleared, both with the turns budget decremented. -/
def sendMessageStream (cfg : DriverConfig) (env : DriverEnv)
    (scripts : List TurnScript) (st : DriverState) (request : Request)
    (signalAborted : Bool) (promptId : String)
    (turns : Nat) (isInvalidStreamRetry : Bool) : RunResult :=
  let st1 := enterState st promptId
  if 0 < cfg.maxSessionTurns ∧ (st1.sessionTurnCount : Int) > cfg.maxSessionTurns then
    { events := [DriverEvent.maxSessionTurns], state := st1, scriptsLeft := scripts
      frames := 1, dispatched := false, recoveries := [], frameOverflow := none }
  else if _hB : Nat.min turns MAX_TURNS = 0 then
    { events := [], state := st1, scriptsLeft := scripts
      frames := 1, dispatched := false, recoveries := [], frameOverflow := none }
  else
    let estimatedRequestTokenCount := request.serializedLength / 4
    let remainingTokenCount :=
      env.tokenLimit (effectiveModelForCurrentTurn env st1) - st1.lastPromptTokenCount
    if (100 : Int) * (estimatedRequestTokenCount : Int) > 95 * remainingTokenCount then
      { events := [DriverEvent.contextWindowWillOverflow
          estimatedRequestTokenCount remainingTokenCount]
        state := st1, scriptsLeft := scripts, frames := 1, dispatched := false
        recoveries := []
        frameOverflow := some (estimatedRequestTokenCount, remainingTokenCount) }
    else
      match dispatchTail cfg (scripts.headD defaultTurnScript) st1 signalAborted
        isInvalidStreamRetry with
      | .finish events stF dispatched =>
        { events := events, state := stF, scriptsLeft := scripts.tail
          frames := 1, dispatched := dispatched, recoveries := []
          frameOverflow := none }
      | .continueWith events stF nextRequest isRecovery =>
        let sub := sendMessageStream cfg env scripts.tail stF nextRequest
          signalAborted promptId (Nat.min turns MAX_TURNS - 1) isRecovery
        { events := events ++ sub.events, state := sub.state
          scriptsLeft := sub.scriptsLeft, frames := 1 + sub.frames
          dispatched := true
          recoveries := if isRecovery
            then [{ request := nextRequest
                    turns := Nat.min turns MAX_TURNS - 1
                    isInvalidStreamRetry := true }]
            else []
          frameOverflow := none }
termination_by turns
decreasing_by
  all_goals
    have h1 : Nat.min turns MAX_TURNS ≤ turns := Nat.min_le_left _ _
    omega

/-! ### Driver helper lemmas: state bookkeeping and branch unfoldings -/

theorem enterState_count (st : DriverState) (promptId : String) :
    (enterState st promptId).sessionTurnCount = st.sessionTurnCount + 1 := by
  rw [enterState, promptPhase]
  split <;> rfl

theorem promptPhase_same (st : DriverState) (promptId : String)
    (h : st.lastPromptId = promptId) : promptPhase st promptId = st := by
  rw [promptPhase, if_neg (by simp [h])]

theorem enterState_same (st : DriverState) (promptId : String)
    (h : st.lastPromptId = promptId) :
    enterState st promptId = { st with sessionTurnCount := st.sessionTurnCount + 1 } := by
  rw [enterState, promptPhase_same st promptId h]

theorem compressionPhase_count (script : TurnScript) (st1 : DriverState) :
    (compressionPhase script st1).2.sessionTurnCount = st1.sessionTurnCount := by
  rw [compressionPhase]
  split <;> rfl

theorem routingPhase_count (script : TurnScript) (st2 : DriverState) :
    (routingPhase script st2).sessionTurnCount = st2.sessionTurnCount := by
  rw [routingPhase]
  split <;> rfl

theorem streamPhase_state (cfg : DriverConfig) (script : TurnScript)
    (st3 : DriverState) (ce : List DriverEvent) (sig isR : Bool) :
    (streamPhase cfg script st3 ce sig isR).state = st3 := by
  rw [streamPhase]
  repeat' split
  all_goals rfl

theorem dispatchTail_state_count (cfg : DriverConfig) (script : TurnScript)
    (st1 : DriverState) (sig isR : Bool) :
    (dispatchTail cfg script st1 sig isR).state.sessionTurnCount
      = st1.sessionTurnCount := by
  rcases hc : compressionPhase script st1 with ⟨ce, st2⟩
  have h2 : st2.sessionTurnCount = st1.sessionTurnCount := by
    have h := compressionPhase_count script st1
    rw [hc] at h
    exact h
  rw [dispatchTail, hc]
  dsimp only
  by_cases hl : script.loopAtStart = true
  · rw [if_pos hl]
    exact h2
  · rw [if_neg hl]
    rw [streamPhase_state, routingPhase_count]
    exact h2

/-- Unfolding of sendMessageStream in the session-cap branch. -/
theorem sendMessageStream_cap (cfg : DriverConfig) (env : DriverEnv)
    (scripts : List TurnScript) (st : DriverState) (request : Request)
    (sig : Bool) (promptId : String) (turns : Nat) (isRetry : Bool)
    (h1 : 0 < cfg.maxSessionTurns ∧
      ((enterState st promptId).sessionTurnCount : Int) > cfg.maxSessionTurns) :
    sendMessageStream cfg env scripts st request sig promptId turns isRetry =
      { events := [DriverEvent.maxSessionTurns], state := enterState st promptId
        scriptsLeft := scripts, frames := 1, dispatched := false
        recoveries := [], frameOverflow := none } := by
  rw [sendMessageStream, if_pos h1]

/-- Unfolding of sendMessageStream in the exhausted-turns-budget branch. -/
theorem sendMessageStream_budget (cfg : DriverConfig) (env : DriverEnv)
    (scripts : List TurnScript) (st : DriverState) (request : Request)
    (sig : Bool) (promptId : String) (turns : Nat) (isRetry : Bool)
    (h1 : ¬(0 < cfg.maxSessionTurns ∧
      ((enterState st promptId).sessionTurnCount : Int) > cfg.maxSessionTurns))
    (h2 : Nat.min turns MAX_TURNS = 0) :
    sendMessageStream cfg env scripts st request sig promptId turns isRetry =
      { events := [], state := enterState st promptId
        scriptsLeft := scripts, frames := 1, dispatched := false
        recoveries := [], frameOverflow := none } := by
  rw [sendMessageStream, if_neg h1, dif_pos h2]

/-- Unfolding of sendMessageStream in the predicted-context-overflow branch. -/
theorem sendMessageStream_overflow (cfg : DriverConfig) (env : DriverEnv)
    (scripts : List TurnScript) (st : DriverState) (request : Request)
    (sig : Bool) (promptId : String) (turns : Nat) (isRetry : Bool)
    (h1 : ¬(0 < cfg.maxSessionTurns ∧
      ((enterState st promptId).sessionTurnCount : Int) > cfg.maxSessionTurns))
    (h2 : ¬(Nat.min turns MAX_TURNS = 0))
    (h3 : (100 : Int) * ((request.serializedLength / 4 : Nat) : Int) >
      95 * (env.tokenLimit (effectiveModelForCurrentTurn env (enterState st promptId))
        - (enterState st promptId).lastPromptTokenCount)) :
    sendMessageStream cfg env scripts st request sig promptId turns isRetry =
      { events := [DriverEvent.contextWindowWillOverflow (request.serializedLength / 4)
          (env.tokenLimit (effectiveModelForCurrentTurn env (enterState st promptId))
            - (enterState st promptId).lastPromptTokenCount)]
        state := enterState st promptId
        scriptsLeft := scripts, frames := 1, dispatched := false, recoveries := []
        frameOverflow := some (request.serializedLength / 4,
          env.tokenLimit (effectiveModelForCurrentTurn env (enterState st promptId))
            - (enterState st promptId).lastPromptTokenCount) } := by
  rw [sendMessageStream, if_neg h1, dif_neg h2]
  lift_lets
  extract_lets est rem
  rw [if_pos (show (100 : Int) * (est : Int) > 95 * rem from h3)]

/-- Unfolding of sendMessageStream when the dispatch region finishes without
requesting a continuation. -/
theorem sendMessageStream_finish (cfg : DriverConfig) (env : DriverEnv)
    (scripts : List TurnScript) (st : DriverState) (request : Request)
    (sig : Bool) (promptId : String) (turns : Nat) (isRetry : Bool)
    (ev : List DriverEvent) (stF : DriverState) (disp : Bool)
    (h1 : ¬(0 < cfg.maxSessionTurns ∧
      ((enterState st promptId).sessionTurnCount : Int) > cfg.maxSessionTurns))
    (h2 : ¬(Nat.min turns MAX_TURNS = 0))
    (h3 : ¬((100 : Int) * ((request.serializedLength / 4 : Nat) : Int) >
      95 * (env.tokenLimit (effectiveModelForCurrentTurn env (enterState st promptId))
        - (enterState st promptId).lastPromptTokenCount)))
    (hdt : dispatchTail cfg (scripts.headD defaultTurnScript)
      (enterState st promptId) sig isRetry = .finish ev stF disp) :
    sendMessageStream cfg env scripts st request sig promptId turns isRetry =
      { events := ev, state := stF, scriptsLeft := scripts.tail, frames := 1
        dispatched := disp, recoveries := [], frameOverflow := none } := by
  rw [sendMessageStream, if_neg h1, dif_neg h2]
  lift_lets
  extract_lets est rem
  rw [if_neg (show ¬((100 : Int) * (est : Int) > 95 * rem) from h3), hdt]

/-- Unfolding of sendMessageStream when the dispatch region requests a
continuation: the driver recurses on the injected request with the bounded
turns budget decremented, setting the recovery-continuation flag exactly for
an invalid-stream recovery, and records that recovery continuation. -/
theorem sendMessageStream_continue (cfg : DriverConfig) (env : DriverEnv)
    (scripts : List TurnScript) (st : DriverState) (request : Request)
    (sig : Bool) (promptId : String) (turns : Nat) (isRetry : Bool)
    (ev : List DriverEvent) (stF : DriverState) (nextReq : Request) (isRec : Bool)
    (h1 : ¬(0 < cfg.maxSessionTurns ∧
      ((enterState st promptId).sessionTurnCount : Int) > cfg.maxSessionTurns))
    (h2 : ¬(Nat.min turns MAX_TURNS = 0))
    (h3 : ¬((100 : Int) * ((request.serializedLength / 4 : Nat) : Int) >
      95 * (env.tokenLimit (effectiveModelForCurrentTurn env (enterState st promptId))
        - (enterState st promptId).lastPromptTokenCount)))
    (hdt : dispatchTail cfg (scripts.headD defaultTurnScript)
      (enterState st promptId) sig isRetry = .continueWith ev stF nextReq isRec) :
    sendMessageStream cfg env scripts st request sig promptId turns isRetry =
      { events := ev ++ (sendMessageStream cfg env scripts.tail stF nextReq sig
          promptId (Nat.min turns MAX_TURNS - 1) isRec).events
        state := (sendMessageStream cfg env scripts.tail stF nextReq sig
          promptId (Nat.min turns MAX_TURNS - 1) isRec).state
        scriptsLeft := (sendMessageStream cfg env scripts.tail stF nextReq sig
          promptId (Nat.min turns MAX_TURNS - 1) isRec).scriptsLeft
        frames := 1 + (sendMessageStream cfg env scripts.tail stF nextReq sig
          promptId (Nat.min turns MAX_TURNS - 1) isRec).frames
        dispatched := true
        recoveries := if isRec
          then [{ request := nextReq, turns := Nat.min turns MAX_TURNS - 1
                  isInvalidStreamRetry := true }]
          else []
        frameOverflow := none } := by
  rw [sendMessageStream, if_neg h1, dif_neg h2]
  lift_lets
  extract_lets est rem
  rw [if_neg (show ¬((100 : Int) * (est : Int) > 95 * rem) from h3), hdt]

/-! ### Shared helper lemmas -/

/-- Violations produced by the location loop always carry the
FILE_SCOPE_VIOLATION code. -/
theorem firstScopeViolation_code (picomatch : String → String → Bool)
    (p : DeclarativeTaskPolicy) (toolName : String) (locs : List PathSegs)
    (v : DeclarativePolicyViolation)
    (h : firstScopeViolation picomatch p toolName locs = some v) :
    v.code = .FILE_SCOPE_VIOLATION := by
  induction locs with
  | nil => simp [firstScopeViolation] at h
  | cons loc rest ih =>
    rw [firstScopeViolation] at h
    split at h
    · exact ih h
    · simp only [Option.some.injEq] at h
      subst h
      rfl

/-- The common head of two segment lists is no longer than either list. -/
theorem commonPrefixLen_le_left (a b : List String) :
    commonPrefixLen a b ≤ a.length := by
  induction a generalizing b with
  | nil => cases b <;> simp [commonPrefixLen]
  | cons x xs ih =>
    cases b with
    | nil => simp [commonPrefixLen]
    | cons y ys =>
      rw [commonPrefixLen]
      split
      · simpa using Nat.succ_le_succ (ih ys)
      · simp

/-- The location loop reports the first location that matches no scope. -/
theorem firstScopeViolation_first_bad (picomatch : String → String → Bool)
    (p : DeclarativeTaskPolicy) (toolName : String)
    (good : List PathSegs) (bad : PathSegs) (rest : List PathSegs)
    (hGood : ∀ l ∈ good, p.fileScopes.any
        (fun scope => FileScopeMatcher.matches picomatch p.projectRoot scope l) = true)
    (hBad : p.fileScopes.any
        (fun scope => FileScopeMatcher.matches picomatch p.projectRoot scope bad) = false) :
    firstScopeViolation picomatch p toolName (good ++ bad :: rest) =
      some { code := .FILE_SCOPE_VIOLATION
             message := fileScopeViolationMessage toolName p.projectRoot bad
             toolName := toolName
             path := some bad } := by
  induction good with
  | nil => simp [firstScopeViolation, hBad]
  | cons l ls ih =>
    have hl := hGood l (by simp)
    rw [List.cons_append, firstScopeViolation, if_pos hl]
    exact ih fun x hx => hGood x (by simp [hx])

/-! ### Claim theorems: tool access policy -/

/-- Claim C2: for every policy whose rules contain a non-empty allowedTools
list and every tool name outside that list, validateToolCall returns a
TOOL_NOT_ALLOWED violation whose message lists the allowed set, and never a
FILE_SCOPE_VIOLATION, regardless of the reported locations and of any
declared file scopes. -/
theorem claim_C2_allowlist_denial
    (picomatch : String → String → Bool)
    (rules : DeclarativePolicyRules) (root : PathSegs)
    (allowed : List String) (toolName : String) (locations : List PathSegs)
    (hAllowed : rules.allowedTools = some allowed)
    (_hNonempty : allowed ≠ [])
    (hNotMem : allowed.contains toolName = false) :
    DeclarativeTaskPolicy.validateToolCall picomatch
        (DeclarativeTaskPolicy.ofRules rules root) toolName locations =
      some { code := .TOOL_NOT_ALLOWED
             message := toolNotAllowedMessage toolName allowed
             toolName := toolName
             path := none } ∧
    ∀ v, DeclarativeTaskPolicy.validateToolCall picomatch
        (DeclarativeTaskPolicy.ofRules rules root) toolName locations = some v →
      v.code ≠ .FILE_SCOPE_VIOLATION := by
  have hmem : toolName ∉ allowed := by simpa using hNotMem
  have h : DeclarativeTaskPolicy.validateToolCall picomatch
      (DeclarativeTaskPolicy.ofRules rules root) toolName locations =
      some { code := .TOOL_NOT_ALLOWED
             message := toolNotAllowedMessage toolName allowed
             toolName := toolName
             path := none } := by
    simp [DeclarativeTaskPolicy.validateToolCall, DeclarativeTaskPolicy.ofRules,
      hAllowed, hmem]
  refine ⟨h, fun v hv => ?_⟩
  rw [h] at hv
  simp only [Option.some.injEq] at hv
  subst hv
  simp

/-- Claim C2 witness. -/
theorem claim_C2_allowlist_denial_witness :
    DeclarativeTaskPolicy.validateToolCall (fun _ _ => true)
        (DeclarativeTaskPolicy.ofRules
          { allowedTools := some ["read_file"], fileScopes := none }
          ["workspace"])
        "write_file" [] =
      some { code := .TOOL_NOT_ALLOWED
             message := toolNotAllowedMessage "write_file" ["read_file"]
             toolName := "write_file"
             path := none } :=
  (claim_C2_allowlist_denial (fun _ _ => true)
    { allowedTools := some ["read_file"], fileScopes := none } ["workspace"]
    ["read_file"] "write_file" [] rfl (by decide) (by decide)).1

/-- Claim C9: a policy constructed with an empty (but present) allowedTools
list denies every tool with TOOL_NOT_ALLOWED and renders the allowed set as
none in the message, whereas an absent allowedTools field never produces a
TOOL_NOT_ALLOWED violation. -/
theorem claim_C9_empty_allowlist
    (picomatch : String → String → Bool)
    (rules : DeclarativePolicyRules) (root : PathSegs)
    (toolName : String) (locations : List PathSegs)
    (hEmpty : rules.allowedTools = some []) :
    (DeclarativeTaskPolicy.validateToolCall picomatch
        (DeclarativeTaskPolicy.ofRules rules root) toolName locations =
      some { code := .TOOL_NOT_ALLOWED
             message := toolNotAllowedMessage toolName []
             toolName := toolName
             path := none }) ∧
    renderAllowedList [] = "none" ∧
    (∀ (picomatch2 : String → String → Bool) (rules2 : DeclarativePolicyRules)
        (root2 : PathSegs) (tool2 : String) (locs2 : List PathSegs)
        (v : DeclarativePolicyViolation),
      rules2.allowedTools = none →
      DeclarativeTaskPolicy.validateToolCall picomatch2
          (DeclarativeTaskPolicy.ofRules rules2 root2) tool2 locs2 = some v →
      v.code ≠ .TOOL_NOT_ALLOWED) := by
  refine ⟨?_, ?_, ?_⟩
  · simp [DeclarativeTaskPolicy.validateToolCall, DeclarativeTaskPolicy.ofRules, hEmpty]
  · rw [renderAllowedList,
      show (([] : List String).eraseDups) = [] from rfl, List.mergeSort_nil]
    rfl
  · intro picomatch2 rules2 root2 tool2 locs2 v hnone hv
    simp only [DeclarativeTaskPolicy.validateToolCall, DeclarativeTaskPolicy.ofRules,
      hnone, DeclarativeTaskPolicy.scopeCheck] at hv
    split at hv
    · simp at hv
    · have := firstScopeViolation_code picomatch2 _ tool2 locs2 v hv
      simp [this]

/-- Claim C9 witness. -/
theorem claim_C9_empty_allowlist_witness :
    DeclarativeTaskPolicy.validateToolCall (fun _ _ => true)
        (DeclarativeTaskPolicy.ofRules
          { allowedTools := some [], fileScopes := none } ["workspace"])
        "read_file" [] =
      some { code := .TOOL_NOT_ALLOWED
             message := toolNotAllowedMessage "read_file" []
             toolName := "read_file"
             path := none } :=
  (claim_C9_empty_allowlist (fun _ _ => true)
    { allowedTools := some [], fileScopes := none } ["workspace"]
    "read_file" [] rfl).1

/-- Claim C3 (amended): a location matches a declared scope iff its path
relative to the project root is non-empty and does not start with .. (rather
than: does not escape the root — a top-level entry whose own name begins with
two dots lies inside the root yet is rejected), matches at least one include
glob and none of the exclude globs; a policy with an empty scope list permits
every location; a location outside the project root never matches any scope;
and when scopes are declared the first non-matching location yields a
FILE_SCOPE_VIOLATION naming the offending relative path. -/
theorem claim_C3_file_scope_matching :
    (∀ (picomatch : String → String → Bool) (root : PathSegs)
        (scope : DeclarativeFileScope) (path : PathSegs),
      FileScopeMatcher.matches picomatch root scope path = true ↔
        (relSegments root path ≠ [] ∧
         relStartsEscape (relSegments root path) = false ∧
         (∃ g ∈ scope.includeGlobs, picomatch g (relString root path) = true) ∧
         (∀ g ∈ scope.excludeGlobs.getD [], picomatch g (relString root path) = false))) ∧
    (∀ (picomatch : String → String → Bool) (p : DeclarativeTaskPolicy)
        (toolName : String) (locations : List PathSegs),
      p.fileScopes = [] →
      (∀ a, p.allowedTools = some a → a.contains toolName = true) →
      DeclarativeTaskPolicy.validateToolCall picomatch p toolName locations = none) ∧
    (∀ (picomatch : String → String → Bool) (root : PathSegs)
        (scope : DeclarativeFileScope) (path : PathSegs),
      insideRoot root path = false →
      FileScopeMatcher.matches picomatch root scope path = false) ∧
    (∀ (picomatch : String → String → Bool) (p : DeclarativeTaskPolicy)
        (toolName : String) (good : List PathSegs) (bad : PathSegs)
        (rest : List PathSegs),
      p.fileScopes ≠ [] →
      (∀ a, p.allowedTools = some a → a.contains toolName = true) →
      (∀ l ∈ good, p.fileScopes.any
          (fun scope => FileScopeMatcher.matches picomatch p.projectRoot scope l) = true) →
      p.fileScopes.any
          (fun scope => FileScopeMatcher.matches picomatch p.projectRoot scope bad) = false →
      DeclarativeTaskPolicy.validateToolCall picomatch p toolName (good ++ bad :: rest) =
        some { code := .FILE_SCOPE_VIOLATION
               message := fileScopeViolationMessage toolName p.projectRoot bad
               toolName := toolName
               path := some bad }) := by
  refine ⟨?_, ?_, ?_, ?_⟩
  · intro picomatch root scope path
    cases h0 : (relSegments root path).isEmpty with
    | true =>
      have hnil : relSegments root path = [] := by simpa using h0
      simp [FileScopeMatcher.matches, h0, hnil]
    | false =>
      have hnil : relSegments root path ≠ [] := by simpa using h0
      cases hEsc : relStartsEscape (relSegments root path) with
      | true => simp [FileScopeMatcher.matches, h0, hEsc]
      | false =>
        rw [FileScopeMatcher.matches]
        simp only [h0, hEsc, Bool.false_eq_true, if_false, relString]
        rw [Bool.and_eq_true, List.any_eq_true, Bool.not_eq_true', List.any_eq_false]
        constructor
        · rintro ⟨hin, hex⟩
          exact ⟨hnil, by simp, hin, fun g hg => by simpa using hex g hg⟩
        · rintro ⟨-, -, hin, hex⟩
          exact ⟨hin, fun g hg => by simp [hex g hg]⟩
  · intro picomatch p toolName locations hEmptyScopes hAllow
    rcases hA : p.allowedTools with _ | a
    · simp [DeclarativeTaskPolicy.validateToolCall, hA,
        DeclarativeTaskPolicy.scopeCheck, hEmptyScopes]
    · have hmem : toolName ∈ a := by simpa using hAllow a hA
      simp [DeclarativeTaskPolicy.validateToolCall, hA, hmem,
        DeclarativeTaskPolicy.scopeCheck, hEmptyScopes]
  · intro picomatch root scope path hOutside
    have hle := commonPrefixLen_le_left root path
    have hneq : commonPrefixLen root path ≠ root.length := by
      intro h
      rw [insideRoot] at hOutside
      simp [h] at hOutside
    have hrep : ∃ t, relSegments root path = ".." :: t := by
      rw [relSegments]
      rcases hk : root.length - commonPrefixLen root path with _ | k
      · omega
      · exact ⟨_, by rw [List.replicate_succ, List.cons_append]⟩
    rcases hrep with ⟨t, ht⟩
    have hj : jsStartsWith ".." ".." = true := rfl
    rw [FileScopeMatcher.matches, ht]
    simp [relStartsEscape, hj]
  · intro picomatch p toolName good bad rest hScopes hAllow hGood hBad
    have hring := firstScopeViolation_first_bad picomatch p toolName good bad rest hGood hBad
    have hne : p.fileScopes.isEmpty = false := by
      cases hfs : p.fileScopes with
      | nil => exact absurd hfs hScopes
      | cons a b => rfl
    rcases hA : p.allowedTools with _ | a
    · simp only [DeclarativeTaskPolicy.validateToolCall, hA,
        DeclarativeTaskPolicy.scopeCheck, hne, Bool.false_eq_true, if_false]
      exact hring
    · simp only [DeclarativeTaskPolicy.validateToolCall, hA, hAllow a hA,
        DeclarativeTaskPolicy.scopeCheck, hne, Bool.not_true, Bool.false_eq_true,
        if_false]
      exact hring

/-- Claim C3 counterexample: the location workspace slash dot-dot-x lies
inside the project root workspace (its name merely begins with two dots), its
relative path dot-dot-x is non-empty and matches the include glob that names
it literally (picomatch on a glob with no special characters matches exactly
that string), no exclude glob is declared — so under the claim the location
matches the scope — yet FileScopeMatcher.matches rejects it, because
path.relative renders it as a string starting with .., and validateToolCall
reports a FILE_SCOPE_VIOLATION for it. -/
theorem claim_C3_counterexample :
    insideRoot ["workspace"] ["workspace", "..x"] = true ∧
    relSegments ["workspace"] ["workspace", "..x"] ≠ [] ∧
    (fun pat s => pat == s : String → String → Bool) "..x"
        (relString ["workspace"] ["workspace", "..x"]) = true ∧
    ({ includeGlobs := ["..x"], excludeGlobs := none } :
        DeclarativeFileScope).excludeGlobs.getD [] = [] ∧
    FileScopeMatcher.matches (fun pat s => pat == s) ["workspace"]
        { includeGlobs := ["..x"], excludeGlobs := none }
        ["workspace", "..x"] = false ∧
    DeclarativeTaskPolicy.validateToolCall (fun pat s => pat == s)
        { allowedTools := none
          fileScopes := [{ includeGlobs := ["..x"], excludeGlobs := none }]
          projectRoot := ["workspace"] }
        "write_file" [["workspace", "..x"]] =
      some { code := .FILE_SCOPE_VIOLATION
             message := fileScopeViolationMessage "write_file" ["workspace"]
               ["workspace", "..x"]
             toolName := "write_file"
             path := some ["workspace", "..x"] } := by
  refine ⟨by decide, by decide, by decide, by decide, by decide, ?_⟩
  rw [DeclarativeTaskPolicy.validateToolCall, DeclarativeTaskPolicy.scopeCheck]
  rw [if_neg (by decide)]
  rw [show ([["workspace", "..x"]] : List PathSegs) = [] ++ ["workspace", "..x"] :: [] from rfl]
  exact firstScopeViolation_first_bad _ _ _ [] _ [] (by simp) (by decide)

/-- Claim C3 witness: a location inside a declared scope matches. -/
theorem claim_C3_file_scope_matching_witness :
    FileScopeMatcher.matches (fun _ _ => true) ["r"]
      { includeGlobs := ["src/**"], excludeGlobs := none } ["r", "src", "a"] = true :=
  (claim_C3_file_scope_matching.1 (fun _ _ => true) ["r"]
      { includeGlobs := ["src/**"], excludeGlobs := none } ["r", "src", "a"]).mpr
    (by refine ⟨by decide, by decide, ⟨"src/**", by decide, rfl⟩, by decide⟩)

/-! ### Claim theorems: verification service -/

/-- Claim C4: verify is a total function into VerificationResult (no branch
of its source raises: the single fallible region is wrapped in a catch whose
handlers also return), and on every terminal outcome — empty post-trim text,
missing web-search tool, invocation build failure, abort, execution failure,
zero sources, one or more sources — the result carries exactly one
assertion. -/
theorem claim_C4_verify_single_assertion
    (env : VerificationEnv) (input : VerificationInput) :
    (VerificationService.verify env input).assertions.length = 1 := by
  rw [VerificationService.verify]
  repeat' split
  all_goals simp

/-! ### Claim theorems: stream retry controller -/

/-- Abbreviation for a malformed-content retry payload. -/
def malformedPayload (attempt maxA delay : Nat) (ty : String) : RetryEventPayload :=
  { attempt := attempt, maxAttempts := maxA, delayMs := delay, errType := ty
    errorCategory := .MALFORMED_CONTENT }

/-- Claim C5: with maxAttempts 3 and every attempt failing with a
malformed-content invalid-stream error, the run emits exactly two retry
events — after the first and the second failed attempt, each emitted before
its backoff delay of initialDelayMs times (attemptIndex plus one) is awaited
— no retry event follows the third attempt, and the third attempt's error is
re-raised after the event sequence ends. -/
theorem claim_C5_retry_exhaustion
    (d : Nat) (hd : 0 < d)
    (factory : Nat → AttemptOutcome)
    (c0 c1 c2 : List Nat) (t0 t1 t2 : String)
    (h0 : factory 0 = .failure c0 (.invalidStream t0 .MALFORMED_CONTENT))
    (h1 : factory 1 = .failure c1 (.invalidStream t1 .MALFORMED_CONTENT))
    (h2 : factory 2 = .failure c2 (.invalidStream t2 .MALFORMED_CONTENT)) :
    (RetryController.run { maxAttempts := 3, initialDelayMs := d } factory).trace =
      c0.map TraceItem.chunk ++
        [.telemetryAttempt (malformedPayload 0 3 (d * 1) t0),
         .retryEvent (malformedPayload 0 3 (d * 1) t0),
         .sleep (d * 1)] ++
      c1.map TraceItem.chunk ++
        [.telemetryAttempt (malformedPayload 1 3 (d * 2) t1),
         .retryEvent (malformedPayload 1 3 (d * 2) t1),
         .sleep (d * 2)] ++
      c2.map TraceItem.chunk ++
        [.telemetryFailure (malformedPayload 2 3 (d * 3) t2),
         .raised (.invalidStream t2 .MALFORMED_CONTENT)] ∧
    countRetryEvents
      (RetryController.run { maxAttempts := 3, initialDelayMs := d } factory).trace = 2 := by
  have hrun :
      (RetryController.run { maxAttempts := 3, initialDelayMs := d } factory).trace =
      c0.map TraceItem.chunk ++
        [.telemetryAttempt (malformedPayload 0 3 (d * 1) t0),
         .retryEvent (malformedPayload 0 3 (d * 1) t0),
         .sleep (d * 1)] ++
      c1.map TraceItem.chunk ++
        [.telemetryAttempt (malformedPayload 1 3 (d * 2) t1),
         .retryEvent (malformedPayload 1 3 (d * 2) t1),
         .sleep (d * 2)] ++
      c2.map TraceItem.chunk ++
        [.telemetryFailure (malformedPayload 2 3 (d * 3) t2),
         .raised (.invalidStream t2 .MALFORMED_CONTENT)] := by
    rw [RetryController.run]
    rw [show (3 : Nat) = 2 + 1 from rfl, RetryController.runAux, h0]
    rw [show (2 : Nat) = 1 + 1 from rfl, RetryController.runAux, h1]
    rw [show (1 : Nat) = 0 + 1 from rfl, RetryController.runAux, h2]
    simp [RetryController.handleFailure, hd, Nat.mul_comm, malformedPayload]
  refine ⟨hrun, ?_⟩
  rw [hrun, countRetryEvents]
  simp [List.filter_append, List.filter_map, Function.comp_def]

/-- Claim C5 witness. -/
theorem claim_C5_retry_exhaustion_witness :
    (RetryController.run { maxAttempts := 3, initialDelayMs := 100 }
      (fun _ => .failure [] (.invalidStream "t" .MALFORMED_CONTENT))).trace =
      ([] : List Nat).map TraceItem.chunk ++
        [.telemetryAttempt (malformedPayload 0 3 (100 * 1) "t"),
         .retryEvent (malformedPayload 0 3 (100 * 1) "t"),
         .sleep (100 * 1)] ++
      ([] : List Nat).map TraceItem.chunk ++
        [.telemetryAttempt (malformedPayload 1 3 (100 * 2) "t"),
         .retryEvent (malformedPayload 1 3 (100 * 2) "t"),
         .sleep (100 * 2)] ++
      ([] : List Nat).map TraceItem.chunk ++
        [.telemetryFailure (malformedPayload 2 3 (100 * 3) "t"),
         .raised (.invalidStream "t" .MALFORMED_CONTENT)] :=
  (claim_C5_retry_exhaustion 100 (by decide)
    (fun _ => .failure [] (.invalidStream "t" .MALFORMED_CONTENT))
    [] [] [] "t" "t" "t" rfl rfl rfl).1

/-- Abbreviation for a safety-blocked retry payload. -/
def safetyPayload (attempt maxA delay : Nat) (ty : String) : RetryEventPayload :=
  { attempt := attempt, maxAttempts := maxA, delayMs := delay, errType := ty
    errorCategory := .SAFETY_BLOCK }

theorem countFailureTelemetry_append (s t : List TraceItem) :
    countFailureTelemetry (s ++ t) =
      countFailureTelemetry s + countFailureTelemetry t := by
  simp [countFailureTelemetry, List.filter_append]

theorem countFailureTelemetry_chunks (l : List Nat) :
    countFailureTelemetry (l.map TraceItem.chunk) = 0 := by
  induction l with
  | nil => rfl
  | cons c cs ih => simp [countFailureTelemetry, List.filter_cons] at ih ⊢

theorem retryEvent_not_mem_chunks (l : List Nat) (p : RetryEventPayload) :
    TraceItem.retryEvent p ∉ l.map TraceItem.chunk := by
  simp

theorem handleFailure_malformed_retry (opts : RetryControllerOptions)
    (a : Nat) (ty : String) (h : a < opts.maxAttempts - 1) :
    RetryController.handleFailure opts a (.invalidStream ty .MALFORMED_CONTENT) =
      ({ shouldRetry := true
         payload := some (malformedPayload a opts.maxAttempts
           (opts.initialDelayMs * (a + 1)) ty)
         delayMs := some (opts.initialDelayMs * (a + 1)) },
       [.telemetryAttempt (malformedPayload a opts.maxAttempts
         (opts.initialDelayMs * (a + 1)) ty)]) := by
  simp [RetryController.handleFailure, malformedPayload, h]

theorem handleFailure_safety (opts : RetryControllerOptions)
    (a : Nat) (ty : String) :
    RetryController.handleFailure opts a (.invalidStream ty .SAFETY_BLOCK) =
      ({ shouldRetry := false
         payload := some (safetyPayload a opts.maxAttempts
           (opts.initialDelayMs * (a + 1)) ty)
         delayMs := none },
       [.telemetryFailure (safetyPayload a opts.maxAttempts
         (opts.initialDelayMs * (a + 1)) ty)]) := by
  simp [RetryController.handleFailure, safetyPayload]

/-- The retry loop on a block of malformed-content failures followed by a
safety-blocked failure: the loop runs exactly through the block, reports
failure telemetry only for the safety-blocked attempt, emits retry events
only for the earlier attempts, and stops with the safety-blocked error
pending. -/
theorem runAux_malformed_then_safety
    (opts : RetryControllerOptions) (factory : Nat → AttemptOutcome)
    (chs : Nat → List Nat) (tys : Nat → String)
    (ck : List Nat) (tk : String) :
    ∀ (j a : Nat), a + j < opts.maxAttempts →
    (∀ i, i < j → factory (a + i) =
      .failure (chs (a + i)) (.invalidStream (tys (a + i)) .MALFORMED_CONTENT)) →
    factory (a + j) = .failure ck (.invalidStream tk .SAFETY_BLOCK) →
    ∃ t,
      RetryController.runAux opts factory (opts.maxAttempts - a) a =
        { trace := t ++ ck.map TraceItem.chunk ++
            [.telemetryFailure (safetyPayload (a + j) opts.maxAttempts
              (opts.initialDelayMs * (a + j + 1)) tk)]
          pendingError := some (.invalidStream tk .SAFETY_BLOCK)
          attemptsStarted := j + 1 } ∧
      countFailureTelemetry t = 0 ∧
      (∀ p, TraceItem.retryEvent p ∈ t → p.attempt < a + j) := by
  intro j
  induction j with
  | zero =>
    intro a hlt _hmal hsafety
    obtain ⟨k, hk⟩ : ∃ k, opts.maxAttempts - a = k + 1 := ⟨opts.maxAttempts - a - 1, by omega⟩
    refine ⟨[], ?_, rfl, by simp⟩
    rw [hk, RetryController.runAux]
    rw [show a + 0 = a from rfl] at hsafety
    rw [hsafety]
    dsimp only
    rw [handleFailure_safety]
    simp [show a + 0 = a from rfl]
  | succ j ih =>
    intro a hlt hmal hsafety
    obtain ⟨k, hk⟩ : ∃ k, opts.maxAttempts - a = k + 1 := ⟨opts.maxAttempts - a - 1, by omega⟩
    have hk' : k = opts.maxAttempts - (a + 1) := by omega
    have hfac : factory a =
        .failure (chs a) (.invalidStream (tys a) .MALFORMED_CONTENT) := by
      simpa using hmal 0 (Nat.succ_pos j)
    have hretry : a < opts.maxAttempts - 1 := by omega
    obtain ⟨t', ht', hcount', hmem'⟩ := ih (a + 1) (by omega)
      (fun i hi => by simpa [Nat.add_assoc, Nat.add_comm 1 i] using hmal (i + 1) (by omega))
      (by simpa [Nat.add_assoc, Nat.add_comm 1 j] using hsafety)
    rw [← hk'] at ht'
    refine ⟨(chs a).map TraceItem.chunk ++
      [.telemetryAttempt (malformedPayload a opts.maxAttempts
        (opts.initialDelayMs * (a + 1)) (tys a)),
       .retryEvent (malformedPayload a opts.maxAttempts
        (opts.initialDelayMs * (a + 1)) (tys a))] ++
      (if 0 < opts.initialDelayMs * (a + 1)
        then [TraceItem.sleep (opts.initialDelayMs * (a + 1))] else []) ++ t',
      ?_, ?_, ?_⟩
    · rw [show a + 1 + j = a + (j + 1) from by omega] at ht'
      rw [hk, RetryController.runAux, hfac]
      dsimp only
      rw [handleFailure_malformed_retry opts a (tys a) hretry]
      dsimp only
      rw [ht']
      simp only [if_true]
      simp only [RetryRunState.mk.injEq, malformedPayload]
      refine ⟨by simp, trivial, by omega⟩
    · rw [countFailureTelemetry_append, countFailureTelemetry_append,
        countFailureTelemetry_append, countFailureTelemetry_chunks, hcount']
      have : countFailureTelemetry
          [.telemetryAttempt (malformedPayload a opts.maxAttempts
            (opts.initialDelayMs * (a + 1)) (tys a)),
           .retryEvent (malformedPayload a opts.maxAttempts
            (opts.initialDelayMs * (a + 1)) (tys a))] = 0 := rfl
      rw [this]
      split <;> rfl
    · intro p hp
      simp only [List.mem_append] at hp
      rcases hp with ((hp | hp) | hp) | hp
      · exact absurd hp (retryEvent_not_mem_chunks _ _)
      · simp only [List.mem_cons, List.not_mem_nil, or_false] at hp
        rcases hp with hp | hp
        · exact absurd hp (by simp)
        · have h := hp
          injection h with h2
          subst h2
          simp only [malformedPayload]
          omega
      · split at hp <;> simp at hp
      · have := hmem' p hp
        omega

/-- Claim C6: if an attempt fails with a safety-blocked invalid-stream error
(after any number of retried malformed-content failures), then no retry event
is emitted for that failure, no chunk from any later attempt is emitted (no
later attempt is started at all), failure telemetry is reported exactly once,
and the error is re-raised after the sequence ends. -/
theorem claim_C6_safety_block_stops
    (opts : RetryControllerOptions) (factory : Nat → AttemptOutcome)
    (chs : Nat → List Nat) (tys : Nat → String)
    (k : Nat) (ck : List Nat) (tk : String)
    (hk : k < opts.maxAttempts)
    (hmal : ∀ i, i < k → factory i =
      .failure (chs i) (.invalidStream (tys i) .MALFORMED_CONTENT))
    (hsafety : factory k = .failure ck (.invalidStream tk .SAFETY_BLOCK)) :
    (RetryController.run opts factory).attemptsStarted = k + 1 ∧
    countFailureTelemetry (RetryController.run opts factory).trace = 1 ∧
    (∃ t, (RetryController.run opts factory).trace =
        t ++ [.telemetryFailure (safetyPayload k opts.maxAttempts
                (opts.initialDelayMs * (k + 1)) tk),
              .raised (.invalidStream tk .SAFETY_BLOCK)] ∧
      ∀ p, TraceItem.retryEvent p ∈ t → p.attempt < k) ∧
    (∀ p, TraceItem.retryEvent p ∈ (RetryController.run opts factory).trace →
      p.attempt < k) := by
  obtain ⟨t, ht, hcount, hmem⟩ := runAux_malformed_then_safety opts factory chs tys ck tk
    k 0 (by omega) (fun i hi => by simpa using hmal i hi) (by simpa using hsafety)
  rw [Nat.sub_zero] at ht
  simp only [Nat.zero_add] at ht hmem
  have hrun : (RetryController.run opts factory).trace =
      (t ++ ck.map TraceItem.chunk ++
        [.telemetryFailure (safetyPayload k opts.maxAttempts
          (opts.initialDelayMs * (k + 1)) tk)]) ++
      [.raised (.invalidStream tk .SAFETY_BLOCK)] := by
    rw [RetryController.run, ht]
  have hstarted : (RetryController.run opts factory).attemptsStarted = k + 1 := by
    rw [RetryController.run, ht]
  refine ⟨hstarted, ?_, ?_, ?_⟩
  · rw [hrun]
    rw [countFailureTelemetry_append, countFailureTelemetry_append,
      countFailureTelemetry_append, countFailureTelemetry_chunks, hcount]
    rfl
  · refine ⟨t ++ ck.map TraceItem.chunk, ?_, ?_⟩
    · rw [hrun]
      simp
    · intro p hp
      simp only [List.mem_append] at hp
      rcases hp with hp | hp
      · exact hmem p hp
      · exact absurd hp (retryEvent_not_mem_chunks _ _)
  · intro p hp
    rw [hrun] at hp
    simp only [List.mem_append] at hp
    rcases hp with ((hp | hp) | hp) | hp
    · exact hmem p hp
    · exact absurd hp (retryEvent_not_mem_chunks _ _)
    · simp at hp
    · simp at hp

/-- Claim C6 witness: a safety-blocked failure on the second attempt after
one retried malformed failure. -/
theorem claim_C6_safety_block_stops_witness :
    (RetryController.run { maxAttempts := 3, initialDelayMs := 50 }
      (fun i => if i = 0 then .failure [] (.invalidStream "m" .MALFORMED_CONTENT)
                else .failure [] (.invalidStream "s" .SAFETY_BLOCK))).attemptsStarted
      = 2 :=
  (claim_C6_safety_block_stops { maxAttempts := 3, initialDelayMs := 50 }
    (fun i => if i = 0 then .failure [] (.invalidStream "m" .MALFORMED_CONTENT)
              else .failure [] (.invalidStream "s" .SAFETY_BLOCK))
    (fun _ => []) (fun _ => "m") 1 [] "s" (by decide)
    (fun i hi => by interval_cases i; rfl) rfl).1

/-! ### Claim theorems: turn driver -/

/-- Claim C10: every invocation of sendMessageStream increments the session
turn counter by exactly one before any budget, overflow, or dispatch check —
including invocations that return without dispatching (exceeded cap, zero
turns budget, predicted overflow, loop detection) and the internal recovery
and next-speaker continuation invocations — so a run of a call with its
continuations raises the counter by exactly the number of invocations, each
of which is checked against the configured session-turn cap. -/
theorem claim_C10_session_turn_accounting (cfg : DriverConfig) (env : DriverEnv)
    (scripts : List TurnScript) (st : DriverState) (request : Request)
    (signalAborted : Bool) (promptId : String) (turns : Nat) (isRetry : Bool) :
    (sendMessageStream cfg env scripts st request signalAborted promptId turns
        isRetry).state.sessionTurnCount =
      st.sessionTurnCount +
        (sendMessageStream cfg env scripts st request signalAborted promptId turns
          isRetry).frames ∧
    1 ≤ (sendMessageStream cfg env scripts st request signalAborted promptId turns
      isRetry).frames := by
  induction turns using Nat.strong_induction_on generalizing scripts st request isRetry with
  | _ turns ih =>
    have hes := enterState_count st promptId
    by_cases h1 : 0 < cfg.maxSessionTurns ∧
        ((enterState st promptId).sessionTurnCount : Int) > cfg.maxSessionTurns
    · rw [sendMessageStream_cap cfg env scripts st request signalAborted promptId
        turns isRetry h1]
      exact ⟨hes, Nat.le_refl 1⟩
    · by_cases h2 : Nat.min turns MAX_TURNS = 0
      · rw [sendMessageStream_budget cfg env scripts st request signalAborted promptId
          turns isRetry h1 h2]
        exact ⟨hes, Nat.le_refl 1⟩
      · by_cases h3 : (100 : Int) * ((request.serializedLength / 4 : Nat) : Int) >
          95 * (env.tokenLimit (effectiveModelForCurrentTurn env (enterState st promptId))
            - (enterState st promptId).lastPromptTokenCount)
        · rw [sendMessageStream_overflow cfg env scripts st request signalAborted promptId
            turns isRetry h1 h2 h3]
          exact ⟨hes, Nat.le_refl 1⟩
        · have hst := dispatchTail_state_count cfg (scripts.headD defaultTurnScript)
            (enterState st promptId) signalAborted isRetry
          rcases hdt : dispatchTail cfg (scripts.headD defaultTurnScript)
              (enterState st promptId) signalAborted isRetry with
            ⟨ev, stF, disp⟩ | ⟨ev, stF, nextReq, isRec⟩
          · rw [hdt, TailOutcome.state] at hst
            rw [sendMessageStream_finish cfg env scripts st request signalAborted promptId
              turns isRetry ev stF disp h1 h2 h3 hdt]
            exact ⟨by rw [hst, hes], Nat.le_refl 1⟩
          · rw [hdt, TailOutcome.state] at hst
            rw [sendMessageStream_continue cfg env scripts st request signalAborted promptId
              turns isRetry ev stF nextReq isRec h1 h2 h3 hdt]
            have hlt : Nat.min turns MAX_TURNS - 1 < turns :=
              Nat.lt_of_lt_of_le
                (Nat.sub_lt (Nat.pos_of_ne_zero h2) Nat.one_pos)
                (Nat.min_le_left _ _)
            obtain ⟨ha, _hb⟩ := ih (Nat.min turns MAX_TURNS - 1) hlt
              scripts.tail stF nextReq isRec
            constructor
            · show (sendMessageStream cfg env scripts.tail stF nextReq signalAborted
                  promptId (Nat.min turns MAX_TURNS - 1) isRec).state.sessionTurnCount =
                st.sessionTurnCount +
                  (1 + (sendMessageStream cfg env scripts.tail stF nextReq signalAborted
                    promptId (Nat.min turns MAX_TURNS - 1) isRec).frames)
              rw [ha, hst, hes]
              omega
            · show 1 ≤ 1 + (sendMessageStream cfg env scripts.tail stF nextReq signalAborted
                promptId (Nat.min turns MAX_TURNS - 1) isRec).frames
              omega

/-- A concrete driver configuration with session-turn cap 1, used by the
concrete driver evaluations below. -/
def capOneCfg : DriverConfig :=
  { maxSessionTurns := 1, continueOnFailedApiCall := true,
    skipNextSpeakerCheck := true, quotaErrorOccurred := false }

/-- A concrete driver configuration with no session-turn cap. -/
def uncappedCfg : DriverConfig :=
  { maxSessionTurns := 0, continueOnFailedApiCall := true,
    skipNextSpeakerCheck := true, quotaErrorOccurred := false }

/-- A concrete driver environment whose every model has token limit 1000. -/
def wideEnv : DriverEnv :=
  { tokenLimit := fun _ => 1000, defaultEffectiveModel := "m" }

/-- A concrete driver environment whose every model has token limit 10. -/
def tinyEnv : DriverEnv :=
  { tokenLimit := fun _ => 10, defaultEffectiveModel := "m" }

/-- A concrete chat state with session turn count 0 and prompt id "p". -/
def freshState : DriverState :=
  { sessionTurnCount := 0, lastPromptId := "p", currentSequenceModel := none,
    lastPromptTokenCount := 0 }

/-- A concrete chat state with session turn count 1 and prompt id "p". -/
def usedState : DriverState :=
  { sessionTurnCount := 1, lastPromptId := "p", currentSequenceModel := none,
    lastPromptTokenCount := 0 }

/-- Claim C8 counterexample: with a session-turn cap of 1 and the counter
already at 1, a call with turnsBudget zero still emits a MaxSessionTurns
event — the turn counter is incremented and checked before the budget check,
so a zero-budget call is not silent for every configuration and state. -/
theorem claim_C8_counterexample :
    (sendMessageStream capOneCfg wideEnv [] usedState { serializedLength := 0 }
        false "p" 0 false).events
      = [DriverEvent.maxSessionTurns] := by
  rw [sendMessageStream_cap _ _ _ _ _ _ _ _ _ (by decide)]

/-- Claim C8 (amended): provided the incremented session turn count does not
exceed a positive session-turn cap, sendMessageStream called with
turnsBudget zero returns immediately with an empty terminal Turn: no events,
no model dispatch, a single frame, no recovery continuations, and no
environment script consumed. -/
theorem claim_C8_zero_budget (cfg : DriverConfig) (env : DriverEnv)
    (scripts : List TurnScript) (st : DriverState) (request : Request)
    (signalAborted : Bool) (promptId : String) (isRetry : Bool)
    (hCap : ¬(0 < cfg.maxSessionTurns ∧
      ((st.sessionTurnCount + 1 : Nat) : Int) > cfg.maxSessionTurns)) :
    (sendMessageStream cfg env scripts st request signalAborted promptId 0 isRetry).events = [] ∧
    (sendMessageStream cfg env scripts st request signalAborted promptId 0 isRetry).dispatched = false ∧
    (sendMessageStream cfg env scripts st request signalAborted promptId 0 isRetry).frames = 1 ∧
    (sendMessageStream cfg env scripts st request signalAborted promptId 0 isRetry).recoveries = [] ∧
    (sendMessageStream cfg env scripts st request signalAborted promptId 0 isRetry).scriptsLeft = scripts := by
  have h1 : ¬(0 < cfg.maxSessionTurns ∧
      ((enterState st promptId).sessionTurnCount : Int) > cfg.maxSessionTurns) := by
    rw [enterState_count]
    exact hCap
  rw [sendMessageStream_budget cfg env scripts st request signalAborted promptId 0 isRetry
    h1 (by simp)]
  exact ⟨rfl, rfl, rfl, rfl, rfl⟩

/-- Claim C8 witness. -/
theorem claim_C8_zero_budget_witness :
    (sendMessageStream uncappedCfg wideEnv [] freshState { serializedLength := 0 }
        false "p" 0 false).events = [] :=
  (claim_C8_zero_budget uncappedCfg wideEnv [] freshState { serializedLength := 0 }
    false "p" false (by decide)).1

/-- Claim C7: for every call that passes the session-turn and turns-budget
checks, the estimated request token count is the serialized request length
divided by four (floor), and the call emits a ContextWindowWillOverflow event
carrying the estimate and the remaining count and returns without dispatching
the model exactly when 100 times the estimate exceeds 95 times the remaining
count (the remaining count being the effective model's token limit minus the
chat's last prompt token count). -/
theorem claim_C7_overflow_check (cfg : DriverConfig) (env : DriverEnv)
    (scripts : List TurnScript) (st : DriverState) (request : Request)
    (signalAborted : Bool) (promptId : String) (turns : Nat) (isRetry : Bool)
    (hPrompt : st.lastPromptId = promptId)
    (hCap : ¬(0 < cfg.maxSessionTurns ∧
      ((st.sessionTurnCount + 1 : Nat) : Int) > cfg.maxSessionTurns))
    (hBudget : turns ≠ 0) :
    (((sendMessageStream cfg env scripts st request signalAborted promptId turns
          isRetry).frameOverflow =
        some (request.serializedLength / 4,
          env.tokenLimit (effectiveModelForCurrentTurn env st) - st.lastPromptTokenCount) ∧
      (sendMessageStream cfg env scripts st request signalAborted promptId turns
        isRetry).dispatched = false) ↔
      (100 : Int) * ((request.serializedLength / 4 : Nat) : Int) >
        95 * (env.tokenLimit (effectiveModelForCurrentTurn env st)
          - st.lastPromptTokenCount)) ∧
    ((100 : Int) * ((request.serializedLength / 4 : Nat) : Int) >
        95 * (env.tokenLimit (effectiveModelForCurrentTurn env st)
          - st.lastPromptTokenCount) →
      (sendMessageStream cfg env scripts st request signalAborted promptId turns
          isRetry).events =
        [DriverEvent.contextWindowWillOverflow (request.serializedLength / 4)
          (env.tokenLimit (effectiveModelForCurrentTurn env st)
            - st.lastPromptTokenCount)] ∧
      (sendMessageStream cfg env scripts st request signalAborted promptId turns
        isRetry).frames = 1) := by
  have hE : enterState st promptId =
      { st with sessionTurnCount := st.sessionTurnCount + 1 } :=
    enterState_same st promptId hPrompt
  have hModel : effectiveModelForCurrentTurn env (enterState st promptId) =
      effectiveModelForCurrentTurn env st := by
    rw [hE]
    rfl
  have hTok : (enterState st promptId).lastPromptTokenCount = st.lastPromptTokenCount := by
    rw [hE]
  have h1 : ¬(0 < cfg.maxSessionTurns ∧
      ((enterState st promptId).sessionTurnCount : Int) > cfg.maxSessionTurns) := by
    rw [enterState_count]
    exact hCap
  have h2 : ¬(Nat.min turns MAX_TURNS = 0) := by
    simp [Nat.min_eq_zero_iff, MAX_TURNS, hBudget]
  by_cases h3 : (100 : Int) * ((request.serializedLength / 4 : Nat) : Int) >
      95 * (env.tokenLimit (effectiveModelForCurrentTurn env st)
        - st.lastPromptTokenCount)
  · have h3e : (100 : Int) * ((request.serializedLength / 4 : Nat) : Int) >
        95 * (env.tokenLimit (effectiveModelForCurrentTurn env (enterState st promptId))
          - (enterState st promptId).lastPromptTokenCount) := by
      rw [hModel, hTok]
      exact h3
    rw [sendMessageStream_overflow cfg env scripts st request signalAborted promptId
      turns isRetry h1 h2 h3e]
    rw [hModel, hTok]
    refine ⟨⟨fun _ => h3, fun _ => ⟨rfl, rfl⟩⟩, fun _ => ⟨rfl, rfl⟩⟩
  · have h3e : ¬((100 : Int) * ((request.serializedLength / 4 : Nat) : Int) >
        95 * (env.tokenLimit (effectiveModelForCurrentTurn env (enterState st promptId))
          - (enterState st promptId).lastPromptTokenCount)) := by
      rw [hModel, hTok]
      exact h3
    refine ⟨⟨fun h => absurd ?_ h3, fun h => absurd h h3⟩, fun h => absurd h h3⟩
    rcases hdt : dispatchTail cfg (scripts.headD defaultTurnScript)
        (enterState st promptId) signalAborted isRetry with
      ⟨ev, stF, disp⟩ | ⟨ev, stF, nextReq, isRec⟩
    · rw [sendMessageStream_finish cfg env scripts st request signalAborted promptId
        turns isRetry ev stF disp h1 h2 h3e hdt] at h
      exact absurd h.1 (by simp)
    · rw [sendMessageStream_continue cfg env scripts st request signalAborted promptId
        turns isRetry ev stF nextReq isRec h1 h2 h3e hdt] at h
      exact absurd h.1 (by simp)

/-- Claim C7 witness: an oversized request triggers the overflow event. -/
theorem claim_C7_overflow_check_witness :
    (100 : Int) * ((({ serializedLength := 4000 } : Request).serializedLength / 4 : Nat) : Int) >
      95 * (tinyEnv.tokenLimit (effectiveModelForCurrentTurn tinyEnv freshState)
        - freshState.lastPromptTokenCount) ∧
    (sendMessageStream uncappedCfg tinyEnv [] freshState { serializedLength := 4000 }
        false "p" 5 false).events =
      [DriverEvent.contextWindowWillOverflow 1000 10] :=
  ⟨by decide,
   by
    have h := (claim_C7_overflow_check uncappedCfg tinyEnv [] freshState
      { serializedLength := 4000 } false "p" 5 false rfl (by decide) (by decide)).2
      (by decide)
    exact h.1⟩

/-- The event loop on a stream of n clean chunks followed by an
invalid-stream failure event (no loop verdicts): every chunk is yielded and
then the invalid-stream event; the loop ends in recovery exactly when the
system continues on failed calls and this call is not already a recovery
continuation, in a retry-failure stop when it is, and otherwise runs to
completion. -/
theorem processStreamEvents_scenario (cf ir : Bool) (n : Nat)
    (category : InvalidStreamCategory) :
    processStreamEvents cf ir
        (List.replicate n (StreamEvent.chunk, false) ++
          [(StreamEvent.invalidStream category, false)]) =
      (List.replicate n DriverEvent.chunk ++ [DriverEvent.invalidStream category],
        if cf then
          (if ir then ProcessEnd.retryFailureStop else ProcessEnd.recover category)
        else ProcessEnd.completed) := by
  induction n with
  | zero =>
    cases cf <;> cases ir <;> simp [processStreamEvents]
  | succ n ih =>
    simp [List.replicate_succ, processStreamEvents, ih]

/-- No single driver frame initiates more than one recovery continuation. -/
theorem recoveries_length_le_one (cfg : DriverConfig) (env : DriverEnv)
    (scripts : List TurnScript) (st : DriverState) (request : Request)
    (sig : Bool) (promptId : String) (turns : Nat) (isRetry : Bool) :
    (sendMessageStream cfg env scripts st request sig promptId turns
      isRetry).recoveries.length ≤ 1 := by
  by_cases h1 : 0 < cfg.maxSessionTurns ∧
      ((enterState st promptId).sessionTurnCount : Int) > cfg.maxSessionTurns
  · rw [sendMessageStream_cap cfg env scripts st request sig promptId turns isRetry h1]
    simp
  · by_cases h2 : Nat.min turns MAX_TURNS = 0
    · rw [sendMessageStream_budget cfg env scripts st request sig promptId turns
        isRetry h1 h2]
      simp
    · by_cases h3 : (100 : Int) * ((request.serializedLength / 4 : Nat) : Int) >
          95 * (env.tokenLimit (effectiveModelForCurrentTurn env (enterState st promptId))
            - (enterState st promptId).lastPromptTokenCount)
      · rw [sendMessageStream_overflow cfg env scripts st request sig promptId turns
          isRetry h1 h2 h3]
        simp
      · rcases hdt : dispatchTail cfg (scripts.headD defaultTurnScript)
            (enterState st promptId) sig isRetry with
          ⟨ev, stF, disp⟩ | ⟨ev, stF, nextReq, isRec⟩
        · rw [sendMessageStream_finish cfg env scripts st request sig promptId turns
            isRetry ev stF disp h1 h2 h3 hdt]
          simp
        · rw [sendMessageStream_continue cfg env scripts st request sig promptId turns
            isRetry ev stF nextReq isRec h1 h2 h3 hdt]
          cases isRec <;> simp

/-- Claim C1: in a natural turn whose dispatched stream surfaces an
invalid-stream failure (after any number of clean chunks, with no loop
verdicts and no loop detected at turn start), the driver initiates the
automatic recovery continuation — the injected System-Please-continue turn,
recursed with the bounded turns budget decremented and the
recovery-continuation flag set — if and only if the system is configured to
continue on failed calls, the surfaced failure is not safety-blocked, and the
current call is not itself already a recovery continuation; moreover every
driver frame, in every run, initiates at most one recovery continuation. -/
theorem claim_C1_invalid_stream_recovery (cfg : DriverConfig) (env : DriverEnv)
    (script : TurnScript) (rest : List TurnScript) (st : DriverState)
    (request : Request) (signalAborted : Bool) (promptId : String) (turns : Nat)
    (isRetry : Bool) (n : Nat) (category : InvalidStreamCategory)
    (hPrompt : st.lastPromptId = promptId)
    (hCap : ¬(0 < cfg.maxSessionTurns ∧
      ((st.sessionTurnCount + 1 : Nat) : Int) > cfg.maxSessionTurns))
    (hBudget : turns ≠ 0)
    (hOverflow : ¬((100 : Int) * ((request.serializedLength / 4 : Nat) : Int) >
      95 * (env.tokenLimit (effectiveModelForCurrentTurn env st)
        - st.lastPromptTokenCount)))
    (hLoop : script.loopAtStart = false)
    (hEvents : script.events = List.replicate n (StreamEvent.chunk, false) ++
      [(StreamEvent.invalidStream category, false)])
    (hSurfaced : SurfacedInvalidStream category) :
    ((sendMessageStream cfg env (script :: rest) st request signalAborted promptId
          turns isRetry).recoveries =
        [{ request := systemPleaseContinueRequest
           turns := Nat.min turns MAX_TURNS - 1
           isInvalidStreamRetry := true }] ↔
      (cfg.continueOnFailedApiCall = true ∧
        category ≠ InvalidStreamCategory.SAFETY_BLOCK ∧ isRetry = false)) ∧
    (∀ (cfg2 : DriverConfig) (env2 : DriverEnv) (scripts2 : List TurnScript)
        (st2 : DriverState) (request2 : Request) (sig2 : Bool)
        (promptId2 : String) (turns2 : Nat) (isRetry2 : Bool),
      (sendMessageStream cfg2 env2 scripts2 st2 request2 sig2 promptId2 turns2
        isRetry2).recoveries.length ≤ 1) := by
  refine ⟨?_, fun cfg2 env2 scripts2 st2 request2 sig2 promptId2 turns2 isRetry2 =>
    recoveries_length_le_one cfg2 env2 scripts2 st2 request2 sig2 promptId2
      turns2 isRetry2⟩
  have hE : enterState st promptId =
      { st with sessionTurnCount := st.sessionTurnCount + 1 } :=
    enterState_same st promptId hPrompt
  have h1 : ¬(0 < cfg.maxSessionTurns ∧
      ((enterState st promptId).sessionTurnCount : Int) > cfg.maxSessionTurns) := by
    rw [enterState_count]
    exact hCap
  have h2 : ¬(Nat.min turns MAX_TURNS = 0) := by
    simp [Nat.min_eq_zero_iff, MAX_TURNS, hBudget]
  have h3 : ¬((100 : Int) * ((request.serializedLength / 4 : Nat) : Int) >
      95 * (env.tokenLimit (effectiveModelForCurrentTurn env (enterState st promptId))
        - (enterState st promptId).lastPromptTokenCount)) := by
    have hModel : effectiveModelForCurrentTurn env (enterState st promptId) =
        effectiveModelForCurrentTurn env st := by
      rw [hE]
      rfl
    rw [hModel, hE]
    exact hOverflow
  rcases hcomp : compressionPhase script (enterState st promptId) with ⟨ce, st2⟩
  have hpse := processStreamEvents_scenario cfg.continueOnFailedApiCall isRetry n
    category
  rw [← hEvents] at hpse
  have hdt0 : dispatchTail cfg script (enterState st promptId) signalAborted isRetry =
      streamPhase cfg script (routingPhase script st2) ce signalAborted isRetry := by
    unfold dispatchTail
    rw [hcomp]
    dsimp only
    rw [if_neg (by simp [hLoop])]
  by_cases hcf : cfg.continueOnFailedApiCall = true
  · by_cases hir : isRetry = true
    · rw [if_pos hcf, if_pos hir] at hpse
      have hout : streamPhase cfg script (routingPhase script st2) ce signalAborted
          isRetry = TailOutcome.finish
            (ce ++ (List.replicate n DriverEvent.chunk ++
              [DriverEvent.invalidStream category]))
            (routingPhase script st2) true := by
        rw [streamPhase, hpse]
      rw [sendMessageStream_finish cfg env (script :: rest) st request signalAborted
        promptId turns isRetry _ _ _ h1 h2 h3 (hdt0.trans hout)]
      constructor
      · intro habs
        exact absurd habs.symm (List.cons_ne_nil _ _)
      · rintro ⟨-, -, hr⟩
        rw [hir] at hr
        exact absurd hr (by simp)
    · rw [if_pos hcf, if_neg hir] at hpse
      have hout : streamPhase cfg script (routingPhase script st2) ce signalAborted
          isRetry = TailOutcome.continueWith
            (ce ++ (List.replicate n DriverEvent.chunk ++
              [DriverEvent.invalidStream category]))
            (routingPhase script st2) systemPleaseContinueRequest true := by
        rw [streamPhase, hpse]
      rw [sendMessageStream_continue cfg env (script :: rest) st request signalAborted
        promptId turns isRetry _ _ _ _ h1 h2 h3 (hdt0.trans hout)]
      constructor
      · intro _
        refine ⟨hcf, ?_, by simpa using hir⟩
        rw [SurfacedInvalidStream] at hSurfaced
        rw [hSurfaced]
        simp
      · intro _
        rfl
  · rw [if_neg hcf] at hpse
    have hout : (streamPhase cfg script (routingPhase script st2) ce signalAborted
          isRetry = TailOutcome.finish
            (ce ++ (List.replicate n DriverEvent.chunk ++
              [DriverEvent.invalidStream category]))
            (routingPhase script st2) true) ∨
        (streamPhase cfg script (routingPhase script st2) ce signalAborted
          isRetry = TailOutcome.continueWith
            (ce ++ (List.replicate n DriverEvent.chunk ++
              [DriverEvent.invalidStream category]))
            (routingPhase script st2) pleaseContinueRequest false) := by
      rw [streamPhase, hpse]
      dsimp only
      by_cases hp : (!script.pendingToolCalls && !signalAborted) = true
      · rw [if_pos hp]
        by_cases hq : cfg.quotaErrorOccurred = true
        · rw [if_pos hq]
          left
          rfl
        · rw [if_neg hq]
          by_cases hs : cfg.skipNextSpeakerCheck = true
          · rw [if_pos hs]
            left
            rfl
          · rw [if_neg hs]
            by_cases hn : script.nextSpeakerIsModel = true
            · rw [if_pos hn]
              right
              rfl
            · rw [if_neg hn]
              left
              rfl
      · rw [if_neg hp]
        left
        rfl
    rcases hout with hout | hout
    · rw [sendMessageStream_finish cfg env (script :: rest) st request signalAborted
        promptId turns isRetry _ _ _ h1 h2 h3 (hdt0.trans hout)]
      constructor
      · intro habs
        exact absurd habs.symm (List.cons_ne_nil _ _)
      · rintro ⟨hcc, -, -⟩
        exact absurd hcc hcf
    · rw [sendMessageStream_continue cfg env (script :: rest) st request signalAborted
        promptId turns isRetry _ _ _ _ h1 h2 h3 (hdt0.trans hout)]
      constructor
      · intro habs
        exact absurd habs.symm (List.cons_ne_nil _ _)
      · rintro ⟨hcc, -, -⟩
        exact absurd hcc hcf

/-- A concrete turn script whose dispatched stream immediately surfaces a
malformed-content invalid-stream failure. -/
def invalidStreamScript : TurnScript :=
  { compressedTokenCount := none, loopAtStart := false, routedModel := "r",
    events := [(StreamEvent.invalidStream InvalidStreamCategory.MALFORMED_CONTENT,
      false)],
    pendingToolCalls := false, nextSpeakerIsModel := false }

/-- Claim C1 witness: with continue-on-failed-calls configured, a surfaced
malformed-content failure on a non-recovery call triggers exactly the
recovery continuation. -/
theorem claim_C1_invalid_stream_recovery_witness :
    (sendMessageStream uncappedCfg wideEnv [invalidStreamScript] freshState
        { serializedLength := 0 } false "p" 5 false).recoveries =
      [{ request := systemPleaseContinueRequest
         turns := Nat.min 5 MAX_TURNS - 1
         isInvalidStreamRetry := true }] :=
  ((claim_C1_invalid_stream_recovery uncappedCfg wideEnv invalidStreamScript []
    freshState { serializedLength := 0 } false "p" 5 false 0
    InvalidStreamCategory.MALFORMED_CONTENT rfl (by decide) (by decide) (by decide)
    rfl rfl rfl).1).mpr ⟨rfl, by decide, rfl⟩

end GeminiCli
